import Mathlib

/-!
Verification of the retirement projection calculator
(src/retirement_streamlit_app_v10.py).

The monetary straight-line computations of the script are embedded as
functions: floating-point arithmetic is modelled exactly over ℚ where the
script only adds, multiplies, compares and divides, and over ℝ where the
script raises to the fractional power (1 + annual_rate) ** (1/12).
Calendar dates are records of integer year, month and day; Python ints are ℤ.
Each definition keeps the name of the script variable or function it embeds.
-/

namespace Retirement

/-- A calendar date as the script uses it: only the year, month and day
fields of datetime.date are ever read. -/
structure Date where
  year : ℤ
  month : ℤ
  day : ℤ

/-- Lines 83-85: months between today and retirement_date, as
(year difference) * 12 + (month difference), minus one when the retirement
day-of-month precedes today's day-of-month. -/
def months_to_retirement (today retirement_date : Date) : ℤ :=
  let m := (retirement_date.year - today.year) * 12 + (retirement_date.month - today.month)
  if retirement_date.day < today.day then m - 1 else m

/-- Line 69: monthly_rate = (1 + annual_rate) ** (1 / 12) - 1, with ** the
real power function. -/
noncomputable def monthly_rate (annual_rate : ℝ) : ℝ :=
  (1 + annual_rate) ^ ((1 : ℝ) / 12) - 1

/-- Line 70: fv_lump = present_value * (1 + monthly_rate) ** months; months is
a Python int, so ** is the integer power of a real. -/
noncomputable def fv_lump (present_value annual_rate : ℝ) (months : ℤ) : ℝ :=
  present_value * (1 + monthly_rate annual_rate) ^ months

/-- Lines 71-74: the annuity series value, with the additive fallback
monthly_contribution * months when monthly_rate is exactly zero. -/
noncomputable def fv_series (monthly_contribution annual_rate : ℝ) (months : ℤ) : ℝ :=
  if monthly_rate annual_rate ≠ 0 then
    monthly_contribution * (((1 + monthly_rate annual_rate) ^ months - 1) / monthly_rate annual_rate)
  else
    monthly_contribution * (months : ℝ)

/-- Lines 68-75: future_value(present_value, monthly_contribution,
annual_rate, months) = fv_lump + fv_series. There is no months ≤ 0 guard in
this version of the script. -/
noncomputable def future_value (present_value monthly_contribution annual_rate : ℝ)
    (months : ℤ) : ℝ :=
  fv_lump present_value annual_rate months + fv_series monthly_contribution annual_rate months

/-- Lines 104-107: equity_released = max(current_house_value -
future_house_price - mortgage_outstanding, 0). -/
def equity_released (current_house_value future_house_price mortgage_outstanding : ℚ) : ℚ :=
  max (current_house_value - future_house_price - mortgage_outstanding) 0

/-- Line 110: db_income_effective = db_income if age_at_retirement >=
db_payout_age else 0. -/
def db_income_effective (db_income : ℚ) (age_at_retirement db_payout_age : ℤ) : ℚ :=
  if age_at_retirement ≥ db_payout_age then db_income else 0

/-- Line 124: total_gross_income is the sum of the five per-source gross
incomes. -/
def total_gross_income (gross_pension gross_isa gross_equity gross_db gross_dividends : ℚ) : ℚ :=
  gross_pension + gross_isa + gross_equity + gross_db + gross_dividends

/-- Line 131: band1 = min(remaining, 12570) with remaining = total gross
income (unused by the tax total; kept for completeness). -/
def band1 (tgi : ℚ) : ℚ := min tgi 12570

/-- Line 135: band2 = min(max(0, total_gross_income - 12570), 50270 - 12570). -/
def band2 (tgi : ℚ) : ℚ := min (max 0 (tgi - 12570)) (50270 - 12570)

/-- Line 140: band3 = min(max(0, total_gross_income - 50270), 125140 - 50270). -/
def band3 (tgi : ℚ) : ℚ := min (max 0 (tgi - 50270)) (125140 - 50270)

/-- Line 145: band4 = max(0, total_gross_income - 125140). -/
def band4 (tgi : ℚ) : ℚ := max 0 (tgi - 125140)

/-- Lines 128-146: tax = band2 * 0.20 + band3 * 0.40 + band4 * 0.45 (band1 is
taxed at 0%). -/
def tax (tgi : ℚ) : ℚ := band2 tgi * 0.20 + band3 tgi * 0.40 + band4 tgi * 0.45

/-- Line 148: net_income = total_gross_income - tax. -/
def net_income (tgi : ℚ) : ℚ := tgi - tax tgi

/-- Line 152: proportion_pension = gross_pension / total_gross_income if
total_gross_income > 0 else 0. Abbreviated shared shape of lines 152-156. -/
def proportion_of (gross tgi : ℚ) : ℚ := if tgi > 0 then gross / tgi else 0

/-- Lines 158-162 shared shape: net_source = gross_source - tax *
proportion_source. -/
def net_of (gross tgi : ℚ) : ℚ := gross - tax tgi * proportion_of gross tgi

/-- Line 158: net_pension, with tax and proportion taken at the total gross
income of the five sources. -/
def net_pension (gp gi ge gd gv : ℚ) : ℚ := net_of gp (total_gross_income gp gi ge gd gv)

/-- Line 159: net_isa. -/
def net_isa (gp gi ge gd gv : ℚ) : ℚ := net_of gi (total_gross_income gp gi ge gd gv)

/-- Line 160: net_equity. -/
def net_equity (gp gi ge gd gv : ℚ) : ℚ := net_of ge (total_gross_income gp gi ge gd gv)

/-- Line 161: net_db. -/
def net_db (gp gi ge gd gv : ℚ) : ℚ := net_of gd (total_gross_income gp gi ge gd gv)

/-- Line 162: net_dividends. -/
def net_dividends (gp gi ge gd gv : ℚ) : ℚ := net_of gv (total_gross_income gp gi ge gd gv)

/-- The computed monthly rate at an annual rate of exactly 0 is exactly 0:
(1 + 0) ** (1/12) - 1 = 0. -/
theorem monthly_rate_zero : monthly_rate 0 = 0 := by
  norm_num [monthly_rate, Real.one_rpow]

/-- C4: months_to_retirement equals the difference in (year*12 + month)
between the target and reference dates, minus one exactly when the target
day-of-month is strictly below the reference day-of-month; the result can be
negative, zero or positive, and nothing clamps it. -/
theorem months_to_retirement_spec :
    (∀ today ret : Date, months_to_retirement today ret =
        (ret.year * 12 + ret.month) - (today.year * 12 + today.month) -
          (if ret.day < today.day then 1 else 0)) ∧
    (∃ t r : Date, months_to_retirement t r < 0) ∧
    (∃ t r : Date, months_to_retirement t r = 0) ∧
    (∃ t r : Date, 0 < months_to_retirement t r) := by
  refine ⟨fun today ret => ?_, ⟨⟨2025, 1, 1⟩, ⟨2024, 1, 1⟩, by decide⟩,
    ⟨⟨2025, 1, 1⟩, ⟨2025, 1, 1⟩, by decide⟩, ⟨⟨2025, 1, 1⟩, ⟨2032, 8, 17⟩, by decide⟩⟩
  unfold months_to_retirement
  split_ifs <;> ring

/-- C6: at an annual rate of exactly 0 the series takes the additive fallback
branch, so the future value is present_value + monthly_contribution * months
with no division by the monthly rate. -/
theorem future_value_rate_zero (pv c : ℝ) (months : ℤ) :
    future_value pv c 0 months = pv + c * (months : ℝ) := by
  unfold future_value fv_lump fv_series
  simp [monthly_rate_zero]

/-- C5: with months = 0 the future value equals the present value exactly,
for every non-negative present value and contribution and rate above -1. -/
theorem future_value_months_zero (pv c r : ℝ) (hpv : 0 ≤ pv) (hc : 0 ≤ c)
    (hr : -1 < r) : future_value pv c r 0 = pv := by
  unfold future_value fv_lump fv_series
  split_ifs <;> simp

/-- Witness for C5 at pv = 100, c = 10, r = 0. -/
theorem future_value_months_zero_witness :
    (0 : ℝ) ≤ 100 ∧ (0 : ℝ) ≤ 10 ∧ (-1 : ℝ) < 0 ∧ future_value 100 10 0 0 = 100 :=
  ⟨by norm_num, by norm_num, by norm_num,
    future_value_months_zero 100 10 0 (by norm_num) (by norm_num) (by norm_num)⟩

/-- Counterexample to C3: at present value 100, contribution 12, rate 0 and
months = -1 (months ≤ 0), the script's future_value returns 88, not the
present value unchanged: the months ≤ 0 guard is absent from this version. -/
theorem future_value_negative_months_counterexample :
    future_value 100 12 0 (-1) ≠ 100 := by
  unfold future_value fv_lump fv_series
  simp [monthly_rate_zero]

/-- C3 amended: only months = 0 is guaranteed to return the present value
unchanged (for every present value, contribution and rate above -1); negative
months instead apply the compounding formulas with a negative exponent. -/
theorem future_value_months_zero_general (pv c r : ℝ) (hr : -1 < r) :
    future_value pv c r 0 = pv := by
  unfold future_value fv_lump fv_series
  split_ifs <;> simp

/-- Witness for the amended C3 at pv = 7, c = 3, r = 1. -/
theorem future_value_months_zero_general_witness :
    (-1 : ℝ) < 1 ∧ future_value 7 3 1 0 = 7 :=
  ⟨by norm_num, future_value_months_zero_general 7 3 1 (by norm_num)⟩

/-- C2: the progressive-band tax on a gross income of 12,570 is exactly 0;
on 50,270 it is exactly 7,540 = 0.20 * (50270 - 12570); on 125,140 it is
exactly 37,488 = 7,540 + 0.40 * (125140 - 50270). -/
theorem tax_band_boundaries :
    tax 12570 = 0 ∧ tax 50270 = 7540 ∧ tax 125140 = 37488 := by
  refine ⟨?_, ?_, ?_⟩ <;> norm_num [tax, band2, band3, band4]

/-- C7: the effective defined-benefit income is exactly 0 when the age at
retirement is strictly below the payout age, and exactly db_income when the
age at retirement is at least the payout age. -/
theorem db_income_effective_threshold (db_income : ℚ) (age payout : ℤ) :
    (age < payout → db_income_effective db_income age payout = 0) ∧
    (payout ≤ age → db_income_effective db_income age payout = db_income) := by
  constructor
  · intro h
    simp [db_income_effective, not_le.mpr h]
  · intro h
    simp [db_income_effective, h]

/-- Witness for C7 at db_income = 20000, payout age 55: age 54 yields 0 and
age 55 yields 20000. -/
theorem db_income_effective_threshold_witness :
    db_income_effective 20000 54 55 = 0 ∧ db_income_effective 20000 55 55 = 20000 :=
  ⟨(db_income_effective_threshold 20000 54 55).1 (by norm_num),
   (db_income_effective_threshold 20000 55 55).2 (by norm_num)⟩

/-- C8: released equity equals max(house value - target price - mortgage, 0),
is never negative for any input signs, and equals the raw difference exactly
when that difference is positive. -/
theorem equity_released_spec (hv tp mo : ℚ) :
    equity_released hv tp mo = max (hv - tp - mo) 0 ∧
    0 ≤ equity_released hv tp mo ∧
    (0 < hv - tp - mo → equity_released hv tp mo = hv - tp - mo) := by
  refine ⟨rfl, le_max_right _ _, fun h => ?_⟩
  simpa [equity_released] using le_of_lt h

/-- Witness for C8 at house 530000, target 350000, mortgage 155000: the raw
difference 25000 is positive and the released equity equals it. -/
theorem equity_released_spec_witness :
    (0 : ℚ) < 530000 - 350000 - 155000 ∧ equity_released 530000 350000 155000 = 530000 - 350000 - 155000 :=
  ⟨by norm_num, (equity_released_spec 530000 350000 155000).2.2 (by norm_num)⟩

/-- C9: for non-negative present value and contribution and a rate at least
0, the future value is non-decreasing in the months argument. -/
theorem future_value_mono_months (pv c r : ℝ) (m1 m2 : ℤ) (hpv : 0 ≤ pv) (hc : 0 ≤ c)
    (hr : 0 ≤ r) (hm : m1 ≤ m2) :
    future_value pv c r m1 ≤ future_value pv c r m2 := by
  have hmr : 0 ≤ monthly_rate r := by
    have hb : (1 : ℝ) ≤ (1 + r) ^ ((1 : ℝ) / 12) := Real.one_le_rpow (by linarith) (by norm_num)
    unfold monthly_rate
    linarith
  have hz : (1 + monthly_rate r) ^ m1 ≤ (1 + monthly_rate r) ^ m2 :=
    zpow_le_zpow_right₀ (by linarith) hm
  unfold future_value fv_lump fv_series
  split_ifs with h
  · have hpos : 0 < monthly_rate r := lt_of_le_of_ne hmr (Ne.symm h)
    have hd : ((1 + monthly_rate r) ^ m1 - 1) / monthly_rate r ≤
        ((1 + monthly_rate r) ^ m2 - 1) / monthly_rate r :=
      (div_le_div_iff_of_pos_right hpos).mpr (by linarith)
    have hl : pv * (1 + monthly_rate r) ^ m1 ≤ pv * (1 + monthly_rate r) ^ m2 :=
      mul_le_mul_of_nonneg_left hz hpv
    have hs : c * (((1 + monthly_rate r) ^ m1 - 1) / monthly_rate r) ≤
        c * (((1 + monthly_rate r) ^ m2 - 1) / monthly_rate r) :=
      mul_le_mul_of_nonneg_left hd hc
    linarith
  · rw [not_ne_iff] at h
    rw [h]
    have hcm : c * (m1 : ℝ) ≤ c * (m2 : ℝ) :=
      mul_le_mul_of_nonneg_left (Int.cast_le.mpr hm) hc
    simp only [add_zero, one_zpow]
    norm_num
    linarith

/-- Witness for C9 at pv = 1, c = 1, r = 0, months 0 and 1. -/
theorem future_value_mono_months_witness :
    (0 : ℝ) ≤ 1 ∧ (0 : ℝ) ≤ 0 ∧ (0 : ℤ) ≤ 1 ∧ future_value 1 1 0 0 ≤ future_value 1 1 0 1 :=
  ⟨by norm_num, le_refl 0, by norm_num,
    future_value_mono_months 1 1 0 0 1 (by norm_num) (by norm_num) (le_refl 0) (by norm_num)⟩

/-- Helper: a non-positive gross income attracts no tax (all taxed bands are
empty). -/
theorem tax_of_nonpos {tgi : ℚ} (h : tgi ≤ 0) : tax tgi = 0 := by
  unfold tax band2 band3 band4
  rw [max_eq_left (by linarith), max_eq_left (by linarith), max_eq_left (by linarith)]
  norm_num

/-- Helper: on a non-negative gross income the banded tax is non-negative and
never exceeds the gross income. -/
theorem tax_bounds_aux {g : ℚ} (hg : 0 ≤ g) : 0 ≤ tax g ∧ tax g ≤ g := by
  unfold tax band2 band3 band4
  constructor <;>
  · simp only [min_def, max_def]
    split_ifs <;> linarith

/-- Helper: a per-source net income is non-negative whenever the source's
gross and the total gross income are non-negative. -/
theorem net_of_nonneg {g T : ℚ} (hg : 0 ≤ g) (hT : 0 ≤ T) : 0 ≤ net_of g T := by
  unfold net_of proportion_of
  split_ifs with h
  · have hb := tax_bounds_aux hT
    have h1 : tax T * (g / T) ≤ T * (g / T) :=
      mul_le_mul_of_nonneg_right hb.2 (by positivity)
    have h2 : T * (g / T) = g := by field_simp
    linarith
  · simpa using hg

/-- C1: the five per-source net incomes always sum to the total net income,
where the total net income is the total gross income minus the tax due and
the total gross income is the sum of the per-source gross incomes; and when
the (non-negative) per-source gross incomes give a zero total gross income,
every per-source net income is exactly 0. -/
theorem net_income_allocation (gp gi ge gd gv : ℚ) :
    net_income (total_gross_income gp gi ge gd gv) =
      total_gross_income gp gi ge gd gv - tax (total_gross_income gp gi ge gd gv) ∧
    net_pension gp gi ge gd gv + net_isa gp gi ge gd gv + net_equity gp gi ge gd gv +
        net_db gp gi ge gd gv + net_dividends gp gi ge gd gv =
      net_income (total_gross_income gp gi ge gd gv) ∧
    (0 ≤ gp → 0 ≤ gi → 0 ≤ ge → 0 ≤ gd → 0 ≤ gv →
      total_gross_income gp gi ge gd gv = 0 →
      net_pension gp gi ge gd gv = 0 ∧ net_isa gp gi ge gd gv = 0 ∧
        net_equity gp gi ge gd gv = 0 ∧ net_db gp gi ge gd gv = 0 ∧
        net_dividends gp gi ge gd gv = 0) := by
  refine ⟨rfl, ?_, ?_⟩
  · unfold net_pension net_isa net_equity net_db net_dividends net_of proportion_of net_income
      total_gross_income
    split_ifs with hT
    · have hne : gp + gi + ge + gd + gv ≠ 0 := ne_of_gt hT
      field_simp
      ring
    · rw [tax_of_nonpos (le_of_not_lt hT)]
      ring
  · intro h1 h2 h3 h4 h5 h0
    unfold total_gross_income at h0
    have e1 : gp = 0 := by linarith
    have e2 : gi = 0 := by linarith
    have e3 : ge = 0 := by linarith
    have e4 : gd = 0 := by linarith
    have e5 : gv = 0 := by linarith
    simp [net_pension, net_isa, net_equity, net_db, net_dividends, net_of, proportion_of,
      total_gross_income, e1, e2, e3, e4, e5]

/-- Witness for C1's zero-gross-income edge case at all-zero gross incomes:
every per-source net income is 0. -/
theorem net_income_allocation_witness :
    net_pension 0 0 0 0 0 = 0 ∧ net_isa 0 0 0 0 0 = 0 ∧ net_equity 0 0 0 0 0 = 0 ∧
      net_db 0 0 0 0 0 = 0 ∧ net_dividends 0 0 0 0 0 = 0 :=
  (net_income_allocation 0 0 0 0 0).2.2 (le_refl 0) (le_refl 0) (le_refl 0) (le_refl 0)
    (le_refl 0) (by norm_num [total_gross_income])

/-- C10: on any non-negative gross income the banded tax lies between 0 and
the gross income, so the total net income is non-negative, and with
non-negative per-source gross incomes every per-source net income is
non-negative as well. -/
theorem tax_and_nets_nonneg :
    (∀ g : ℚ, 0 ≤ g → 0 ≤ tax g ∧ tax g ≤ g) ∧
    (∀ gp gi ge gd gv : ℚ, 0 ≤ gp → 0 ≤ gi → 0 ≤ ge → 0 ≤ gd → 0 ≤ gv →
      0 ≤ net_income (total_gross_income gp gi ge gd gv) ∧
      0 ≤ net_pension gp gi ge gd gv ∧ 0 ≤ net_isa gp gi ge gd gv ∧
        0 ≤ net_equity gp gi ge gd gv ∧ 0 ≤ net_db gp gi ge gd gv ∧
        0 ≤ net_dividends gp gi ge gd gv) := by
  refine ⟨fun g hg => tax_bounds_aux hg, fun gp gi ge gd gv h1 h2 h3 h4 h5 => ?_⟩
  have hT : 0 ≤ total_gross_income gp gi ge gd gv := by
    unfold total_gross_income; linarith
  refine ⟨?_, net_of_nonneg h1 hT, net_of_nonneg h2 hT, net_of_nonneg h3 hT,
    net_of_nonneg h4 hT, net_of_nonneg h5 hT⟩
  have hb := tax_bounds_aux hT
  unfold net_income
  linarith

/-- Witness for C10 at gross income 50270 and per-source gross incomes
1, 2, 3, 4, 5. -/
theorem tax_and_nets_nonneg_witness :
    (0 ≤ tax 50270 ∧ tax 50270 ≤ 50270) ∧ 0 ≤ net_pension 1 2 3 4 5 :=
  ⟨tax_and_nets_nonneg.1 50270 (by norm_num),
    (tax_and_nets_nonneg.2 1 2 3 4 5 (by norm_num) (by norm_num) (by norm_num) (by norm_num)
      (by norm_num)).2.1⟩

end Retirement
